import Mathlib

/-!
Shallow embedding of the presentation-layer data access and helpers of the
`whatisthegovtsaying` static site:

* `src/lib/digest.ts` — read-only SQLite readers (`getLatestDigest`,
  `getDigestByDate`, `getAllDigestDates`, `getWeeklyDigest`,
  `getAllWeeklyDates`) over the digest store tables.
* `src/lib/constants.ts` — `COUNTRY_NAMES`, `COUNTRY_FLAGS`, `formatDate`,
  `formatDateShort`, `prevDate`, `nextDate`.
* `src/lib/og.ts` — `generateOgImage` headline/description truncation.
* `src/lib/md.ts` — `stripMd`.
* `src/pages/og/daily/[date].png.ts` and `src/pages/og/weekly/[date].png.ts`
  — the OG image `GET` routes.

The database is a record of row lists (one list per table, in rowid order);
every reader is a function `DB → result × DB` so that the absence of write
effects is an actual statement about the embedding, not a convention.
SQL `ORDER BY` on a text column is modelled by an insertion sort under
byte-lexicographic comparison (SQLite BINARY collation on UTF-8 text, which
coincides with code-point order).
-/

/-- Byte/code-point order on characters (SQLite BINARY collation unit). -/
def charLtb (a b : Char) : Bool := a < b

/-- Lexicographic strict order on character lists. -/
def charListLtb : List Char → List Char → Bool
  | [], [] => false
  | [], _ :: _ => true
  | _ :: _, [] => false
  | a :: as, b :: bs =>
    if charLtb a b then true else if charLtb b a then false else charListLtb as bs

/-- Strict lexicographic order on strings (models SQLite text comparison). -/
def strLtb (a b : String) : Bool := charListLtb a.data b.data

/-- Reflexive lexicographic order on strings. -/
def strLeb (a b : String) : Bool := !(strLtb b a)

/-- Insert into a list sorted by `le` (helper of `sortBy`). -/
def insertBy (le : α → α → Bool) (a : α) : List α → List α
  | [] => [a]
  | b :: t => if le a b then a :: b :: t else b :: insertBy le a t

/-- Insertion sort by a boolean relation; models SQL `ORDER BY`. -/
def sortBy (le : α → α → Bool) : List α → List α
  | [] => []
  | a :: t => insertBy le a (sortBy le t)

/-- Row of the `release_summary` table. -/
structure ReleaseSummaryRow where
  id : Nat
  country_digest_id : Nat
  release_id : Nat
  title : String
  summary : String
  original_url : String
  ministry : Option String
  deriving DecidableEq

/-- The `ReleaseSummary` interface of `digest.ts`. -/
structure ReleaseSummary where
  id : Nat
  release_id : Nat
  title : String
  summary : String
  original_url : String
  ministry : Option String
  deriving DecidableEq

/-- View of a `release_summary` row through the `ReleaseSummary` interface. -/
def ReleaseSummaryRow.toSummary (r : ReleaseSummaryRow) : ReleaseSummary :=
  { id := r.id, release_id := r.release_id, title := r.title,
    summary := r.summary, original_url := r.original_url, ministry := r.ministry }

/-- Row of the `country_digest` table. -/
structure CountryDigestRow where
  id : Nat
  daily_digest_id : Nat
  country_code : String
  country_name : String
  title : String
  summary : String
  deriving DecidableEq

/-- The `CountryDigest` interface of `digest.ts` (page-level entry). -/
structure CountryDigest where
  id : Nat
  country_code : String
  country_name : String
  title : String
  summary : String
  releases : List ReleaseSummary
  deriving DecidableEq

/-- The `DailyDigest` interface, which is exactly a `daily_digest` row. -/
structure DailyDigest where
  id : Nat
  date : String
  global_title : String
  global_summary : String
  created_at : String
  deriving DecidableEq

/-- The `DigestPage` interface of `digest.ts`. -/
structure DigestPage where
  digest : DailyDigest
  countries : List CountryDigest
  deriving DecidableEq

/-- Row of the `weekly_country_digest` table. -/
structure WeeklyCountryDigestRow where
  id : Nat
  weekly_digest_id : Nat
  country_code : String
  country_name : String
  title : String
  summary : String
  deriving DecidableEq

/-- The `WeeklyCountryDigest` interface of `digest.ts`. -/
structure WeeklyCountryDigest where
  id : Nat
  country_code : String
  country_name : String
  title : String
  summary : String
  deriving DecidableEq

/-- The `WeeklyDigest` interface, which is exactly a `weekly_digest` row. -/
structure WeeklyDigest where
  id : Nat
  week_start : String
  week_end : String
  global_title : String
  global_summary : String
  created_at : String
  deriving DecidableEq

/-- The `WeeklyPage` interface of `digest.ts`. -/
structure WeeklyPage where
  digest : WeeklyDigest
  countries : List WeeklyCountryDigest
  deriving DecidableEq

/-- The persisted digest store: one list per table, in rowid order. -/
structure DB where
  daily_digest : List DailyDigest
  country_digest : List CountryDigestRow
  release_summary : List ReleaseSummaryRow
  weekly_digest : List WeeklyDigest
  weekly_country_digest : List WeeklyCountryDigestRow
  deriving DecidableEq

/-- JavaScript `s || dflt` on strings: the empty string is falsy. -/
def jsOrElse (s dflt : String) : String := if s = "" then dflt else s

/-- Statement `SELECT * FROM daily_digest ORDER BY date DESC LIMIT 1` + `.get()`. -/
def stmtLatestDaily (db : DB) : Option DailyDigest × DB :=
  ((sortBy (fun a b => strLeb b.date a.date) db.daily_digest).head?, db)

/-- Statement `SELECT * FROM daily_digest WHERE date = ?` + `.get(date)`. -/
def stmtDailyByDate (db : DB) (date : String) : Option DailyDigest × DB :=
  (db.daily_digest.find? (fun r => r.date == date), db)

/-- Statement `SELECT date FROM daily_digest ORDER BY date DESC` + `.all()`. -/
def stmtAllDailyDates (db : DB) : List String × DB :=
  ((sortBy (fun a b => strLeb b.date a.date) db.daily_digest).map (·.date), db)

/-- Statement `SELECT * FROM weekly_digest WHERE week_end = ?` + `.get(weekEnd)`. -/
def stmtWeeklyByEnd (db : DB) (weekEnd : String) : Option WeeklyDigest × DB :=
  (db.weekly_digest.find? (fun r => r.week_end == weekEnd), db)

/-- Statement `SELECT week_end FROM weekly_digest ORDER BY week_end DESC` + `.all()`. -/
def stmtAllWeeklyEnds (db : DB) : List String × DB :=
  ((sortBy (fun a b => strLeb b.week_end a.week_end) db.weekly_digest).map (·.week_end), db)

/-- Statement `SELECT * FROM country_digest WHERE daily_digest_id = ? ORDER BY country_name`. -/
def stmtCountriesForDaily (db : DB) (id : Nat) : List CountryDigestRow × DB :=
  (sortBy (fun a b => strLeb a.country_name b.country_name)
    (db.country_digest.filter (fun c => c.daily_digest_id == id)), db)

/-- Statement `SELECT * FROM release_summary WHERE country_digest_id = ? ORDER BY id`. -/
def stmtReleasesForCountry (db : DB) (id : Nat) : List ReleaseSummaryRow × DB :=
  (sortBy (fun a b => Nat.ble a.id b.id)
    (db.release_summary.filter (fun r => r.country_digest_id == id)), db)

/-- Statement `SELECT * FROM weekly_country_digest WHERE weekly_digest_id = ? ORDER BY country_name`. -/
def stmtCountriesForWeekly (db : DB) (id : Nat) : List WeeklyCountryDigestRow × DB :=
  (sortBy (fun a b => strLeb a.country_name b.country_name)
    (db.weekly_country_digest.filter (fun c => c.weekly_digest_id == id)), db)

/-- The page-level entry built for one `country_digest` row inside
`buildDigestPage` (the body of the `countryRows.map` callback). -/
def countryEntry (c : CountryDigestRow) (releases : List ReleaseSummaryRow) : CountryDigest :=
  { id := c.id, country_code := c.country_code, country_name := c.country_name,
    title := jsOrElse c.title "", summary := c.summary,
    releases := releases.map ReleaseSummaryRow.toSummary }

/-- The `countryRows.map` loop of `buildDigestPage`: one `release_summary`
query per country row, threading the connection state. -/
def buildCountryEntries : DB → List CountryDigestRow → List CountryDigest × DB
  | db, [] => ([], db)
  | db, c :: cs =>
    let (releases, db1) := stmtReleasesForCountry db c.id
    let (rest, db2) := buildCountryEntries db1 cs
    (countryEntry c releases :: rest, db2)

/-- `buildDigestPage` of `digest.ts`. -/
def buildDigestPage (db : DB) (digest : DailyDigest) : DigestPage × DB :=
  let (countryRows, db1) := stmtCountriesForDaily db digest.id
  let (countries, db2) := buildCountryEntries db1 countryRows
  ({ digest := digest, countries := countries }, db2)

/-- `buildWeeklyPage` of `digest.ts`. -/
def buildWeeklyPage (db : DB) (digest : WeeklyDigest) : WeeklyPage × DB :=
  let (countryRows, db1) := stmtCountriesForWeekly db digest.id
  ({ digest := digest,
     countries := countryRows.map (fun c =>
       { id := c.id, country_code := c.country_code, country_name := c.country_name,
         title := jsOrElse c.title "", summary := c.summary }) }, db1)

/-- `getLatestDigest` of `digest.ts`. -/
def getLatestDigest (db : DB) : Option DigestPage × DB :=
  match stmtLatestDaily db with
  | (none, db1) => (none, db1)
  | (some row, db1) =>
    let (page, db2) := buildDigestPage db1 row
    (some page, db2)

/-- `getDigestByDate` of `digest.ts`. -/
def getDigestByDate (db : DB) (date : String) : Option DigestPage × DB :=
  match stmtDailyByDate db date with
  | (none, db1) => (none, db1)
  | (some row, db1) =>
    let (page, db2) := buildDigestPage db1 row
    (some page, db2)

/-- `getAllDigestDates` of `digest.ts`. -/
def getAllDigestDates (db : DB) : List String × DB :=
  stmtAllDailyDates db

/-- `getWeeklyDigest` of `digest.ts`. -/
def getWeeklyDigest (db : DB) (weekEnd : String) : Option WeeklyPage × DB :=
  match stmtWeeklyByEnd db weekEnd with
  | (none, db1) => (none, db1)
  | (some row, db1) =>
    let (page, db2) := buildWeeklyPage db1 row
    (some page, db2)

/-- `getAllWeeklyDates` of `digest.ts`. -/
def getAllWeeklyDates (db : DB) : List String × DB :=
  stmtAllWeeklyEnds db

/-- `COUNTRY_NAMES` of `constants.ts`, as an association list in source order. -/
def COUNTRY_NAMES : List (String × String) :=
  [("AE", "UAE"), ("AR", "Argentina"), ("AU", "Australia"), ("BR", "Brazil"),
   ("CA", "Canada"), ("CH", "Switzerland"), ("CN", "China"), ("DE", "Germany"),
   ("ES", "Spain"), ("EU", "European Union"), ("FR", "France"),
   ("GB", "United Kingdom"), ("ID", "Indonesia"), ("IE", "Ireland"),
   ("IN", "India"), ("IT", "Italy"), ("JP", "Japan"), ("KR", "South Korea"),
   ("NG", "Nigeria"), ("NL", "Netherlands"), ("NZ", "New Zealand"),
   ("QA", "Qatar"), ("RU", "Russia"), ("SG", "Singapore"), ("TH", "Thailand"),
   ("TW", "Taiwan"), ("UN", "United Nations"), ("US", "United States"),
   ("VN", "Vietnam"), ("WHO", "WHO"), ("ZA", "South Africa")]

/-- `COUNTRY_FLAGS` of `constants.ts`, as an association list in source order. -/
def COUNTRY_FLAGS : List (String × String) :=
  [("AE", "🇦🇪"), ("AR", "🇦🇷"), ("AU", "🇦🇺"),
   ("BR", "🇧🇷"), ("CA", "🇨🇦"), ("CH", "🇨🇭"),
   ("CN", "🇨🇳"), ("DE", "🇩🇪"), ("ES", "🇪🇸"),
   ("EU", "🇪🇺"), ("FR", "🇫🇷"), ("GB", "🇬🇧"),
   ("ID", "🇮🇩"), ("IE", "🇮🇪"), ("IN", "🇮🇳"),
   ("IT", "🇮🇹"), ("JP", "🇯🇵"), ("KR", "🇰🇷"),
   ("NG", "🇳🇬"), ("NL", "🇳🇱"), ("NZ", "🇳🇿"),
   ("QA", "🇶🇦"), ("RU", "🇷🇺"), ("SG", "🇸🇬"),
   ("TH", "🇹🇭"), ("TW", "🇹🇼"), ("UN", "🇺🇳"),
   ("US", "🇺🇸"), ("VN", "🇻🇳"), ("WHO", "🏥"),
   ("ZA", "🇿🇦")]

/-- Code-point slice `s.slice(0, n)` as used by `og.ts` and the OG routes. -/
def jsSlice (s : String) (n : Nat) : String := String.mk (s.data.take n)

/-- The text nodes `generateOgImage` places into the rendered image:
truncated headline, truncated description, and the date label. -/
structure OgImage where
  headline : String
  description : String
  dateLabel : String
  deriving DecidableEq

/-- `generateOgImage` of `og.ts`, restricted to the text content of the
rendered image (fonts, layout and PNG encoding carry no text state). -/
def generateOgImage (headline description dateLabel : String) : OgImage :=
  { headline := if headline.length > 90 then jsSlice headline 87 ++ "..." else headline,
    description :=
      if description.length > 140 then jsSlice description 137 ++ "..." else description,
    dateLabel := dateLabel }

/-- One global-replace pass for the pattern of two-star bold wrapping
(nonempty star-free content between double stars) of `stripMd`. -/
def stripBold : Nat → List Char → List Char
  | 0, l => l
  | _ + 1, [] => []
  | fuel + 1, '*' :: '*' :: rest =>
    match List.span (fun c => c ≠ '*') rest with
    | (content, '*' :: '*' :: rest2) =>
      if content.isEmpty then '*' :: stripBold fuel ('*' :: rest)
      else content ++ stripBold fuel rest2
    | _ => '*' :: stripBold fuel ('*' :: rest)
  | fuel + 1, c :: rest => c :: stripBold fuel rest

/-- One global-replace pass unwrapping nonempty content between two copies
of a single marker character (star, underscore or backtick) of `stripMd`. -/
def stripWrap (mark : Char) : Nat → List Char → List Char
  | 0, l => l
  | _ + 1, [] => []
  | fuel + 1, c :: rest =>
    if c = mark then
      match List.span (fun x => x ≠ mark) rest with
      | (content, _ :: rest2) =>
        if content.isEmpty then c :: stripWrap mark fuel rest
        else content ++ stripWrap mark fuel rest2
      | (_, []) => c :: stripWrap mark fuel rest
    else c :: stripWrap mark fuel rest

/-- Global removal of leading hash runs and following whitespace at line
starts (the multiline heading pass of `stripMd`). -/
def stripHeadings : Nat → Bool → List Char → List Char
  | 0, _, l => l
  | _ + 1, _, [] => []
  | fuel + 1, atStart, c :: rest =>
    if atStart && c == '#' then
      let afterHashes := rest.dropWhile (fun x => x == '#')
      let ws := afterHashes.takeWhile Char.isWhitespace
      let afterWs := afterHashes.dropWhile Char.isWhitespace
      stripHeadings fuel (ws.getLast? == some '\n') afterWs
    else c :: stripHeadings fuel (c == '\n') rest

/-- Global replacement of markdown links by their label text of `stripMd`. -/
def stripLinks : Nat → List Char → List Char
  | 0, l => l
  | _ + 1, [] => []
  | fuel + 1, c :: rest =>
    if c = '[' then
      match List.span (fun x => x ≠ ']') rest with
      | (label, _ :: next) =>
        match next with
        | '(' :: rest2 =>
          match List.span (fun x => x ≠ ')') rest2 with
          | (url, _ :: rest3) =>
            if label.isEmpty || url.isEmpty then c :: stripLinks fuel rest
            else label ++ stripLinks fuel rest3
          | (_, []) => c :: stripLinks fuel rest
        | _ => c :: stripLinks fuel rest
      | (_, []) => c :: stripLinks fuel rest
    else c :: stripLinks fuel rest

/-- `stripMd` of `md.ts`: the global replace passes (bold, star and
underscore emphasis, backtick code, line-leading hashes, links) then trim. -/
def stripMd (text : String) : String :=
  let l0 := text.data
  let l1 := stripBold l0.length l0
  let l2 := stripWrap '*' l1.length l1
  let l3 := stripWrap '_' l2.length l2
  let l4 := stripWrap (Char.ofNat 96) l3.length l3
  let l5 := stripHeadings l4.length true l4
  let l6 := stripLinks l5.length l5
  (String.mk l6).trim

/-- Character to its decimal digit value, if any (code points 48-57). -/
def digitVal (c : Char) : Option Nat :=
  if 48 ≤ c.toNat ∧ c.toNat ≤ 57 then some (c.toNat - 48) else none

/-- Parse of the `YYYY-MM-DD` date component that
`new Date(dateStr + "T12:00:00Z")` consumes. -/
def parseDate (s : String) : Option (Nat × Nat × Nat) :=
  match s.data with
  | [y1, y2, y3, y4, '-', m1, m2, '-', d1, d2] =>
    match digitVal y1, digitVal y2, digitVal y3, digitVal y4,
          digitVal m1, digitVal m2, digitVal d1, digitVal d2 with
    | some a, some b, some c, some e, some f, some g, some h, some i =>
      some (1000 * a + 100 * b + 10 * c + e, 10 * f + g, 10 * h + i)
    | _, _, _, _, _, _, _, _ => none
  | _ => none

/-- Long en-US month name used by `formatDate`. -/
def monthNameLong (m : Nat) : String :=
  match m with
  | 1 => "January" | 2 => "February" | 3 => "March" | 4 => "April" | 5 => "May"
  | 6 => "June" | 7 => "July" | 8 => "August" | 9 => "September"
  | 10 => "October" | 11 => "November" | 12 => "December" | _ => ""

/-- Short en-US month name used by `formatDateShort`. -/
def monthNameShort (m : Nat) : String :=
  match m with
  | 1 => "Jan" | 2 => "Feb" | 3 => "Mar" | 4 => "Apr" | 5 => "May"
  | 6 => "Jun" | 7 => "Jul" | 8 => "Aug" | 9 => "Sep"
  | 10 => "Oct" | 11 => "Nov" | 12 => "Dec" | _ => ""

/-- `formatDate` of `constants.ts` (en-US long form, e.g. "January 2, 2024"). -/
def formatDate (s : String) : String :=
  match parseDate s with
  | some (y, m, d) => monthNameLong m ++ " " ++ toString d ++ ", " ++ toString y
  | none => "Invalid Date"

/-- `formatDateShort` of `constants.ts` (e.g. "Jan 2"). -/
def formatDateShort (s : String) : String :=
  match parseDate s with
  | some (_, m, d) => monthNameShort m ++ " " ++ toString d
  | none => "Invalid Date"

/-- Response of an OG image route: plain 404, or a 200 PNG rendered from
the given text content. -/
inductive OgResponse where
  | notFound : OgResponse
  | png : OgImage → OgResponse
  deriving DecidableEq

/-- HTTP status of an OG route response. -/
def OgResponse.status : OgResponse → Nat
  | .notFound => 404
  | .png _ => 200

/-- The image rendered by an OG route response, if any. -/
def OgResponse.image : OgResponse → Option OgImage
  | .notFound => none
  | .png i => some i

/-- The `.replace` character-class removal of the daily OG route. -/
def stripSpecialDaily (s : String) : String :=
  String.mk (s.data.filter (fun c =>
    !(c == '*' || c == '_' || c == '#' || c == '>' || c == '[' || c == ']')))

/-- The `.replace` character-class removal of the weekly OG route (also
drops the pipe character). -/
def stripSpecialWeekly (s : String) : String :=
  String.mk (s.data.filter (fun c =>
    !(c == '*' || c == '_' || c == '#' || c == '>' || c == '[' || c == ']' || c == '|')))

/-- `GET` of `src/pages/og/daily/[date].png.ts`. -/
def dailyOgGET (db : DB) (date : String) : OgResponse :=
  match (getDigestByDate db date).1 with
  | none => .notFound
  | some page =>
    .png (generateOgImage
      (stripMd (jsOrElse page.digest.global_title "Government Press Digest"))
      (jsSlice (stripSpecialDaily page.digest.global_summary) 160)
      (formatDate page.digest.date))

/-- `GET` of `src/pages/og/weekly/[date].png.ts`. -/
def weeklyOgGET (db : DB) (date : String) : OgResponse :=
  match (getWeeklyDigest db date).1 with
  | none => .notFound
  | some page =>
    .png (generateOgImage
      (stripMd (jsOrElse page.digest.global_title "Weekly Government Digest"))
      (jsSlice (stripSpecialWeekly page.digest.global_summary) 160)
      ("Week of " ++ formatDateShort page.digest.week_start ++ " — "
        ++ formatDate page.digest.week_end))

/-- Schema well-formedness used by the uniqueness-dependent claims:
`daily_digest.date` and `weekly_digest.week_end` are UNIQUE columns. -/
def WF (db : DB) : Prop :=
  (db.daily_digest.map (fun r => r.date)).Nodup ∧
  (db.weekly_digest.map (fun r => r.week_end)).Nodup

/-- Example `daily_digest` row for 2024-01-01. -/
def exDaily1 : DailyDigest :=
  { id := 1, date := "2024-01-01", global_title := "T1", global_summary := "S1",
    created_at := "2024-01-01 23:00:00" }

/-- Example `daily_digest` row for 2024-01-02. -/
def exDaily2 : DailyDigest :=
  { id := 2, date := "2024-01-02", global_title := "T2", global_summary := "S2",
    created_at := "2024-01-02 23:00:00" }

/-- Example `country_digest` row (Brazil, under `exDaily2`). -/
def exCountryB : CountryDigestRow :=
  { id := 10, daily_digest_id := 2, country_code := "BR", country_name := "Brazil",
    title := "tB", summary := "sB" }

/-- Example `country_digest` row (Australia, under `exDaily2`). -/
def exCountryA : CountryDigestRow :=
  { id := 11, daily_digest_id := 2, country_code := "AU", country_name := "Australia",
    title := "tA", summary := "sA" }

/-- Example `country_digest` row (United States, under `exDaily1`). -/
def exCountryU : CountryDigestRow :=
  { id := 12, daily_digest_id := 1, country_code := "US",
    country_name := "United States", title := "tU", summary := "sU" }

/-- Example `release_summary` row: smaller id but later title. -/
def exRel1 : ReleaseSummaryRow :=
  { id := 1, country_digest_id := 10, release_id := 42, title := "b",
    summary := "rs1", original_url := "u1", ministry := none }

/-- Example `release_summary` row: larger id but earlier title. -/
def exRel2 : ReleaseSummaryRow :=
  { id := 2, country_digest_id := 10, release_id := 43, title := "a",
    summary := "rs2", original_url := "u2", ministry := some "m2" }

/-- Example `release_summary` row under the Australia country digest. -/
def exRel3 : ReleaseSummaryRow :=
  { id := 3, country_digest_id := 11, release_id := 44, title := "x",
    summary := "rs3", original_url := "u3", ministry := none }

/-- Example `weekly_digest` row. -/
def exWeekly : WeeklyDigest :=
  { id := 5, week_start := "2024-01-01", week_end := "2024-01-07",
    global_title := "WT", global_summary := "WS",
    created_at := "2024-01-07 23:30:00" }

/-- Example `weekly_country_digest` row (Brazil). -/
def exWCountryB : WeeklyCountryDigestRow :=
  { id := 20, weekly_digest_id := 5, country_code := "BR", country_name := "Brazil",
    title := "wtB", summary := "wsB" }

/-- Example `weekly_country_digest` row (Australia). -/
def exWCountryA : WeeklyCountryDigestRow :=
  { id := 21, weekly_digest_id := 5, country_code := "AU",
    country_name := "Australia", title := "wtA", summary := "wsA" }

/-- Concrete example database used by the witnesses. -/
def exDb : DB :=
  { daily_digest := [exDaily1, exDaily2],
    country_digest := [exCountryB, exCountryA, exCountryU],
    release_summary := [exRel1, exRel2, exRel3],
    weekly_digest := [exWeekly],
    weekly_country_digest := [exWCountryB, exWCountryA] }

/-- A 141-character description used by the C9 witness. -/
def exLongDesc : String := String.mk (List.replicate 141 'a')

/-- Field content of a page-level country entry, for comparison with rows. -/
def countryFields (c : CountryDigest) : Nat × String × String × String × String :=
  (c.id, c.country_code, c.country_name, c.title, c.summary)

/-- Field content of a `country_digest` row (dropping the foreign key). -/
def countryRowFields (c : CountryDigestRow) : Nat × String × String × String × String :=
  (c.id, c.country_code, c.country_name, c.title, c.summary)

/-- Field content of a weekly page-level country entry. -/
def weeklyCountryFields (c : WeeklyCountryDigest) : Nat × String × String × String × String :=
  (c.id, c.country_code, c.country_name, c.title, c.summary)

/-- Field content of a `weekly_country_digest` row (dropping the foreign key). -/
def weeklyCountryRowFields (c : WeeklyCountryDigestRow) : Nat × String × String × String × String :=
  (c.id, c.country_code, c.country_name, c.title, c.summary)

/-- The countries of a daily page are exactly the `country_digest` rows whose
`daily_digest_id` is the digest's id, sorted ascending by `country_name`. -/
def dailyCountriesSpec (db : DB) (p : DigestPage) : Prop :=
  (p.countries.map countryFields).Perm
    ((db.country_digest.filter
      (fun c => c.daily_digest_id == p.digest.id)).map countryRowFields)
  ∧ p.countries.Pairwise (fun a b => strLeb a.country_name b.country_name = true)

/-- The countries of a weekly page are exactly the `weekly_country_digest`
rows whose `weekly_digest_id` is the digest's id, sorted ascending by
`country_name`. -/
def weeklyCountriesSpec (db : DB) (q : WeeklyPage) : Prop :=
  (q.countries.map weeklyCountryFields).Perm
    ((db.weekly_country_digest.filter
      (fun c => c.weekly_digest_id == q.digest.id)).map weeklyCountryRowFields)
  ∧ q.countries.Pairwise (fun a b => strLeb a.country_name b.country_name = true)

theorem charLtb_asymm {a b : Char} (h : charLtb a b = true) : charLtb b a = false := by
  simp only [charLtb, decide_eq_true_eq] at h
  simp only [charLtb, decide_eq_false_iff_not]
  exact lt_asymm h

theorem charLtb_trans {a b c : Char} (h1 : charLtb a b = true) (h2 : charLtb b c = true) :
    charLtb a c = true := by
  simp only [charLtb, decide_eq_true_eq] at h1 h2 ⊢
  exact lt_trans h1 h2

theorem charLtb_connex {a b : Char} (h1 : charLtb a b = false) (h2 : charLtb b a = false) :
    a = b := by
  simp only [charLtb, decide_eq_false_iff_not, not_lt] at h1 h2
  exact le_antisymm h2 h1

theorem charListLtb_asymm :
    ∀ {x y : List Char}, charListLtb x y = true → charListLtb y x = false
  | [], [], h => by simp [charListLtb] at h
  | [], _ :: _, _ => by simp [charListLtb]
  | _ :: _, [], h => by simp [charListLtb] at h
  | a :: as, b :: bs, h => by
    simp only [charListLtb] at h ⊢
    cases hab : charLtb a b with
    | true =>
      rw [charLtb_asymm hab]
      simp [hab]
    | false =>
      cases hba : charLtb b a with
      | true => simp [hab, hba] at h
      | false =>
        simp only [hab, hba, if_false] at h ⊢
        exact charListLtb_asymm h

theorem charListLtb_trans :
    ∀ {x y z : List Char}, charListLtb x y = true → charListLtb y z = true →
      charListLtb x z = true
  | [], [], _, h1, _ => by simp [charListLtb] at h1
  | [], _ :: _, [], _, h2 => by simp [charListLtb] at h2
  | [], _ :: _, _ :: _, _, _ => by simp [charListLtb]
  | _ :: _, [], _, h1, _ => by simp [charListLtb] at h1
  | _ :: _, _ :: _, [], _, h2 => by simp [charListLtb] at h2
  | a :: as, b :: bs, c :: cs, h1, h2 => by
    simp only [charListLtb] at h1 h2 ⊢
    cases hab : charLtb a b with
    | true =>
      cases hbc : charLtb b c with
      | true => simp [charLtb_trans hab hbc]
      | false =>
        cases hcb : charLtb c b with
        | true => simp [hbc, hcb] at h2
        | false =>
          have hbceq : b = c := charLtb_connex hbc hcb
          subst hbceq
          simp [hab]
    | false =>
      cases hba : charLtb b a with
      | true => simp [hab, hba] at h1
      | false =>
        have habeq : a = b := charLtb_connex hab hba
        subst habeq
        simp only [hab, if_false] at h1
        cases hac : charLtb a c with
        | true => simp [hac]
        | false =>
          cases hca : charLtb c a with
          | true => simp [hac, hca] at h2
          | false =>
            have haceq : a = c := charLtb_connex hac hca
            subst haceq
            simp only [hac, if_false] at h2 ⊢
            exact charListLtb_trans h1 h2

theorem charListLtb_connex :
    ∀ {x y : List Char}, charListLtb x y = false → charListLtb y x = false → x = y
  | [], [], _, _ => rfl
  | [], _ :: _, h1, _ => by simp [charListLtb] at h1
  | _ :: _, [], _, h2 => by simp [charListLtb] at h2
  | a :: as, b :: bs, h1, h2 => by
    simp only [charListLtb] at h1 h2
    cases hab : charLtb a b with
    | true => simp [hab] at h1
    | false =>
      cases hba : charLtb b a with
      | true => simp [hab, hba] at h2
      | false =>
        have habeq : a = b := charLtb_connex hab hba
        subst habeq
        simp only [hab, if_false] at h1 h2
        rw [charListLtb_connex h1 h2]

theorem strLeb_total (a b : String) : strLeb a b = true ∨ strLeb b a = true := by
  simp only [strLeb, strLtb, Bool.not_eq_true']
  cases h : charListLtb b.data a.data with
  | false => exact Or.inl rfl
  | true => exact Or.inr (charListLtb_asymm h)

theorem strLeb_trans {a b c : String} (h1 : strLeb a b = true) (h2 : strLeb b c = true) :
    strLeb a c = true := by
  simp only [strLeb, strLtb, Bool.not_eq_true'] at h1 h2 ⊢
  cases hca : charListLtb c.data a.data with
  | false => rfl
  | true =>
    cases hbc : charListLtb b.data c.data with
    | true =>
      have := charListLtb_trans hbc hca
      simp [this] at h1
    | false =>
      have hbceq : b.data = c.data := charListLtb_connex hbc h2
      rw [← hbceq] at hca
      simp [hca] at h1

theorem strLeb_antisymm {a b : String} (h1 : strLeb a b = true) (h2 : strLeb b a = true) :
    a = b := by
  simp only [strLeb, strLtb, Bool.not_eq_true'] at h1 h2
  have hdata : a.data = b.data := charListLtb_connex h2 h1
  cases a with
  | mk da =>
    cases b with
    | mk db =>
      simp only at hdata
      rw [hdata]

theorem insertBy_perm (le : α → α → Bool) (a : α) (l : List α) :
    (insertBy le a l).Perm (a :: l) := by
  induction l with
  | nil => exact List.Perm.refl _
  | cons b t ih =>
    simp only [insertBy]
    split
    · exact List.Perm.refl _
    · exact (List.Perm.cons b ih).trans (List.Perm.swap a b t)

theorem sortBy_perm (le : α → α → Bool) (l : List α) : (sortBy le l).Perm l := by
  induction l with
  | nil => exact List.Perm.refl _
  | cons a t ih => exact (insertBy_perm le a _).trans (List.Perm.cons a ih)

theorem pairwise_insertBy {le : α → α → Bool}
    (htot : ∀ a b, le a b = true ∨ le b a = true)
    (htr : ∀ a b c, le a b = true → le b c = true → le a c = true)
    (a : α) {l : List α} (h : l.Pairwise (fun x y => le x y = true)) :
    (insertBy le a l).Pairwise (fun x y => le x y = true) := by
  induction l with
  | nil => simp [insertBy]
  | cons b t ih =>
    rw [List.pairwise_cons] at h
    simp only [insertBy]
    split
    case isTrue hab =>
      rw [List.pairwise_cons]
      refine ⟨fun x hx => ?_, List.pairwise_cons.mpr h⟩
      rcases List.mem_cons.mp hx with hxb | hxt
      · cases hxb; exact hab
      · exact htr a b x hab (h.1 x hxt)
    case isFalse hab =>
      have hba : le b a = true := by
        rcases htot a b with h' | h'
        · exact absurd h' hab
        · exact h'
      rw [List.pairwise_cons]
      refine ⟨fun x hx => ?_, ih h.2⟩
      rcases List.mem_cons.mp ((insertBy_perm le a t).mem_iff.mp hx) with hxa | hxt
      · cases hxa; exact hba
      · exact h.1 x hxt

theorem sortBy_pairwise {le : α → α → Bool}
    (htot : ∀ a b, le a b = true ∨ le b a = true)
    (htr : ∀ a b c, le a b = true → le b c = true → le a c = true)
    (l : List α) : (sortBy le l).Pairwise (fun x y => le x y = true) := by
  induction l with
  | nil => simp [sortBy]
  | cons a t ih => exact pairwise_insertBy htot htr a ih

theorem jsOrElse_empty (s : String) : jsOrElse s "" = s := by
  unfold jsOrElse
  split
  · rename_i h
    exact h.symm
  · rfl

theorem buildCountryEntries_snd (db : DB) (l : List CountryDigestRow) :
    (buildCountryEntries db l).2 = db := by
  induction l generalizing db with
  | nil => rfl
  | cons c cs ih => simp [buildCountryEntries, stmtReleasesForCountry, ih]

theorem buildCountryEntries_fst (db : DB) (l : List CountryDigestRow) :
    (buildCountryEntries db l).1 =
      l.map (fun c => countryEntry c (stmtReleasesForCountry db c.id).1) := by
  induction l generalizing db with
  | nil => rfl
  | cons c cs ih => simp [buildCountryEntries, stmtReleasesForCountry, ih]

theorem buildDigestPage_snd (db : DB) (digest : DailyDigest) :
    (buildDigestPage db digest).2 = db := by
  simp [buildDigestPage, stmtCountriesForDaily, buildCountryEntries_snd]

theorem buildDigestPage_fst (db : DB) (digest : DailyDigest) :
    (buildDigestPage db digest).1 =
      { digest := digest,
        countries := (stmtCountriesForDaily db digest.id).1.map
          (fun c => countryEntry c (stmtReleasesForCountry db c.id).1) } := by
  simp [buildDigestPage, stmtCountriesForDaily, buildCountryEntries_fst]

theorem buildWeeklyPage_snd (db : DB) (digest : WeeklyDigest) :
    (buildWeeklyPage db digest).2 = db := by
  simp [buildWeeklyPage, stmtCountriesForWeekly]

theorem buildWeeklyPage_fst (db : DB) (digest : WeeklyDigest) :
    (buildWeeklyPage db digest).1 =
      { digest := digest,
        countries := (stmtCountriesForWeekly db digest.id).1.map (fun c =>
          { id := c.id, country_code := c.country_code, country_name := c.country_name,
            title := jsOrElse c.title "", summary := c.summary }) } := by
  simp [buildWeeklyPage, stmtCountriesForWeekly]

theorem getLatestDigest_snd (db : DB) : (getLatestDigest db).2 = db := by
  unfold getLatestDigest stmtLatestDaily
  cases h : (sortBy (fun a b => strLeb b.date a.date) db.daily_digest).head? with
  | none => simp [h]
  | some row =>
    rcases h2 : buildDigestPage db row with ⟨page, db2⟩
    have := buildDigestPage_snd db row
    rw [h2] at this
    simp [h, h2, this]

theorem getLatestDigest_fst (db : DB) :
    (getLatestDigest db).1 =
      ((sortBy (fun a b => strLeb b.date a.date) db.daily_digest).head?).map
        (fun row => (buildDigestPage db row).1) := by
  unfold getLatestDigest stmtLatestDaily
  cases h : (sortBy (fun a b => strLeb b.date a.date) db.daily_digest).head? with
  | none => simp [h]
  | some row =>
    rcases h2 : buildDigestPage db row with ⟨page, db2⟩
    simp [h, h2]

theorem getDigestByDate_snd (db : DB) (date : String) : (getDigestByDate db date).2 = db := by
  unfold getDigestByDate stmtDailyByDate
  cases h : db.daily_digest.find? (fun r => r.date == date) with
  | none => simp [h]
  | some row =>
    rcases h2 : buildDigestPage db row with ⟨page, db2⟩
    have := buildDigestPage_snd db row
    rw [h2] at this
    simp [h, h2, this]

theorem getDigestByDate_fst (db : DB) (date : String) :
    (getDigestByDate db date).1 =
      (db.daily_digest.find? (fun r => r.date == date)).map
        (fun row => (buildDigestPage db row).1) := by
  unfold getDigestByDate stmtDailyByDate
  cases h : db.daily_digest.find? (fun r => r.date == date) with
  | none => simp [h]
  | some row =>
    rcases h2 : buildDigestPage db row with ⟨page, db2⟩
    simp [h, h2]

theorem getWeeklyDigest_snd (db : DB) (weekEnd : String) :
    (getWeeklyDigest db weekEnd).2 = db := by
  unfold getWeeklyDigest stmtWeeklyByEnd
  cases h : db.weekly_digest.find? (fun r => r.week_end == weekEnd) with
  | none => simp [h]
  | some row =>
    rcases h2 : buildWeeklyPage db row with ⟨page, db2⟩
    have := buildWeeklyPage_snd db row
    rw [h2] at this
    simp [h, h2, this]

theorem getWeeklyDigest_fst (db : DB) (weekEnd : String) :
    (getWeeklyDigest db weekEnd).1 =
      (db.weekly_digest.find? (fun r => r.week_end == weekEnd)).map
        (fun row => (buildWeeklyPage db row).1) := by
  unfold getWeeklyDigest stmtWeeklyByEnd
  cases h : db.weekly_digest.find? (fun r => r.week_end == weekEnd) with
  | none => simp [h]
  | some row =>
    rcases h2 : buildWeeklyPage db row with ⟨page, db2⟩
    simp [h, h2]

/-- C1: every presentation-layer read operation (`getLatestDigest`,
`getDigestByDate`, `getAllDigestDates`, `getWeeklyDigest`,
`getAllWeeklyDates`) is read-only: on every database state the connection
state it returns is exactly the state it was given, so no write is
performed and the persisted digest state after the call equals the state
before the call. -/
theorem readers_are_read_only (db : DB) (date weekEnd : String) :
    (getLatestDigest db).2 = db ∧ (getDigestByDate db date).2 = db ∧
    (getAllDigestDates db).2 = db ∧ (getWeeklyDigest db weekEnd).2 = db ∧
    (getAllWeeklyDates db).2 = db :=
  ⟨getLatestDigest_snd db, getDigestByDate_snd db date, rfl,
    getWeeklyDigest_snd db weekEnd, rfl⟩

theorem countryFields_entry (c : CountryDigestRow) (rel : List ReleaseSummaryRow) :
    countryFields (countryEntry c rel) = countryRowFields c := by
  simp [countryFields, countryRowFields, countryEntry, jsOrElse_empty]

theorem dailyCountriesSpec_build (db : DB) (row : DailyDigest) :
    dailyCountriesSpec db (buildDigestPage db row).1 := by
  rw [buildDigestPage_fst]
  unfold dailyCountriesSpec
  constructor
  · simp only [List.map_map]
    have hmap : ((stmtCountriesForDaily db row.id).1.map
        (countryFields ∘ fun c => countryEntry c (stmtReleasesForCountry db c.id).1)) =
        (stmtCountriesForDaily db row.id).1.map countryRowFields := by
      apply List.map_congr_left
      intro a _
      exact countryFields_entry a _
    rw [hmap]
    exact (sortBy_perm _ _).map countryRowFields
  · rw [List.pairwise_map]
    exact sortBy_pairwise
      (fun a b : CountryDigestRow => strLeb_total a.country_name b.country_name)
      (fun a b c => strLeb_trans) _

theorem weeklyCountriesSpec_build (db : DB) (row : WeeklyDigest) :
    weeklyCountriesSpec db (buildWeeklyPage db row).1 := by
  rw [buildWeeklyPage_fst]
  unfold weeklyCountriesSpec
  constructor
  · simp only [List.map_map]
    have hmap : ((stmtCountriesForWeekly db row.id).1.map
        ((fun c : WeeklyCountryDigest => weeklyCountryFields c) ∘ fun c =>
          { id := c.id, country_code := c.country_code, country_name := c.country_name,
            title := jsOrElse c.title "", summary := c.summary })) =
        (stmtCountriesForWeekly db row.id).1.map weeklyCountryRowFields := by
      apply List.map_congr_left
      intro a _
      simp [weeklyCountryFields, weeklyCountryRowFields, jsOrElse_empty]
    rw [hmap]
    exact (sortBy_perm _ _).map weeklyCountryRowFields
  · rw [List.pairwise_map]
    exact sortBy_pairwise
      (fun a b : WeeklyCountryDigestRow => strLeb_total a.country_name b.country_name)
      (fun a b c => strLeb_trans) _

/-- C2: the countries of the `DigestPage` returned by `getLatestDigest` or
`getDigestByDate` are exactly the `country_digest` rows whose
`daily_digest_id` equals the digest's id, sorted ascending by
`country_name`; the countries of the `WeeklyPage` returned by
`getWeeklyDigest` are exactly the matching `weekly_country_digest` rows
sorted ascending by `country_name`. -/
theorem pages_countries_exact_and_sorted (db : DB) (d w : String) :
    (∀ p, (getLatestDigest db).1 = some p → dailyCountriesSpec db p) ∧
    (∀ p, (getDigestByDate db d).1 = some p → dailyCountriesSpec db p) ∧
    (∀ q, (getWeeklyDigest db w).1 = some q → weeklyCountriesSpec db q) := by
  refine ⟨fun p hp => ?_, fun p hp => ?_, fun q hq => ?_⟩
  · rw [getLatestDigest_fst, Option.map_eq_some'] at hp
    obtain ⟨row, _, hrow⟩ := hp
    rw [← hrow]
    exact dailyCountriesSpec_build db row
  · rw [getDigestByDate_fst, Option.map_eq_some'] at hp
    obtain ⟨row, _, hrow⟩ := hp
    rw [← hrow]
    exact dailyCountriesSpec_build db row
  · rw [getWeeklyDigest_fst, Option.map_eq_some'] at hq
    obtain ⟨row, _, hrow⟩ := hq
    rw [← hrow]
    exact weeklyCountriesSpec_build db row

/-- Witness for C2 at the concrete example database. -/
theorem pages_countries_exact_and_sorted_witness :
    dailyCountriesSpec exDb (buildDigestPage exDb exDaily2).1 ∧
    weeklyCountriesSpec exDb (buildWeeklyPage exDb exWeekly).1 := by
  have h := pages_countries_exact_and_sorted exDb "2024-01-02" "2024-01-07"
  exact ⟨h.2.1 _ (by decide), h.2.2 _ (by decide)⟩

theorem natBle_total (a b : Nat) : Nat.ble a b = true ∨ Nat.ble b a = true := by
  simp only [Nat.ble_eq]
  exact Nat.le_total a b

theorem natBle_trans {a b c : Nat} (h1 : Nat.ble a b = true) (h2 : Nat.ble b c = true) :
    Nat.ble a c = true := by
  simp only [Nat.ble_eq] at h1 h2 ⊢
  exact le_trans h1 h2

theorem releases_sorted_build (db : DB) (row : DailyDigest) :
    ∀ c ∈ (buildDigestPage db row).1.countries,
      c.releases.Pairwise (fun a b => a.id ≤ b.id) := by
  have hbld := buildDigestPage_fst db row
  intro c hc
  rw [hbld] at hc
  simp only [List.mem_map] at hc
  obtain ⟨r, _, hr⟩ := hc
  rw [← hr]
  show ((stmtReleasesForCountry db r.id).1.map ReleaseSummaryRow.toSummary).Pairwise _
  rw [List.pairwise_map]
  simp only [stmtReleasesForCountry]
  have hp := sortBy_pairwise
    (fun a b : ReleaseSummaryRow => natBle_total a.id b.id)
    (fun a b c h1 h2 => natBle_trans h1 h2)
    (db.release_summary.filter (fun x => x.country_digest_id == r.id))
  refine hp.imp ?_
  intro a b h
  exact Nat.le_of_ble_eq_true h

/-- C3 (amended): within every `DigestPage` returned by `getLatestDigest`
or `getDigestByDate`, each country's `ReleaseSummary` collection is ordered
ascending by `id` (the SQL `ORDER BY id`), not by name. -/
theorem page_releases_ordered_by_id (db : DB) (d : String) :
    (∀ p, (getLatestDigest db).1 = some p →
      ∀ c ∈ p.countries, c.releases.Pairwise (fun a b => a.id ≤ b.id)) ∧
    (∀ p, (getDigestByDate db d).1 = some p →
      ∀ c ∈ p.countries, c.releases.Pairwise (fun a b => a.id ≤ b.id)) := by
  constructor
  · intro p hp
    rw [getLatestDigest_fst, Option.map_eq_some'] at hp
    obtain ⟨row, _, hrow⟩ := hp
    rw [← hrow]
    exact releases_sorted_build db row
  · intro p hp
    rw [getDigestByDate_fst, Option.map_eq_some'] at hp
    obtain ⟨row, _, hrow⟩ := hp
    rw [← hrow]
    exact releases_sorted_build db row

/-- Witness for C3's amended theorem: the Brazil entry of the 2024-01-02
page carries its two releases in ascending id order. -/
theorem page_releases_ordered_by_id_witness :
    (countryEntry exCountryB [exRel1, exRel2]) ∈ (buildDigestPage exDb exDaily2).1.countries ∧
    (countryEntry exCountryB [exRel1, exRel2]).releases.Pairwise (fun a b => a.id ≤ b.id) :=
  ⟨by decide, (page_releases_ordered_by_id exDb "2024-01-02").2
    (buildDigestPage exDb exDaily2).1 (by decide)
    (countryEntry exCountryB [exRel1, exRel2]) (by decide)⟩

/-- C3 as stated fails on the code: a country's releases are returned in
`id` order, which disagrees with name (title) order at this database. -/
theorem page_releases_ordered_by_name_counterexample :
    ¬ (∀ (db : DB) (d : String) (p : DigestPage),
        (getDigestByDate db d).1 = some p →
        ∀ c ∈ p.countries,
          c.releases.Pairwise (fun a b => strLeb a.title b.title = true)) := by
  intro h
  have hc := h exDb "2024-01-02" (buildDigestPage exDb exDaily2).1 (by decide)
    (countryEntry exCountryB [exRel1, exRel2]) (by decide)
  revert hc
  decide

/-- C4: `getAllDigestDates` returns exactly the `date` values of
`daily_digest` in descending order, and `getAllWeeklyDates` returns exactly
the `week_end` values of `weekly_digest` in descending order. -/
theorem all_dates_exact_and_descending (db : DB) :
    ((getAllDigestDates db).1.Perm (db.daily_digest.map (fun r => r.date)) ∧
      (getAllDigestDates db).1.Pairwise (fun a b => strLeb b a = true)) ∧
    ((getAllWeeklyDates db).1.Perm (db.weekly_digest.map (fun r => r.week_end)) ∧
      (getAllWeeklyDates db).1.Pairwise (fun a b => strLeb b a = true)) := by
  refine ⟨⟨?_, ?_⟩, ?_, ?_⟩
  · exact (sortBy_perm _ db.daily_digest).map (fun r => r.date)
  · show ((sortBy (fun a b => strLeb b.date a.date) db.daily_digest).map
      (fun r => r.date)).Pairwise _
    rw [List.pairwise_map]
    exact sortBy_pairwise
      (fun a b : DailyDigest => strLeb_total b.date a.date)
      (fun a b c h1 h2 => strLeb_trans h2 h1) db.daily_digest
  · exact (sortBy_perm _ db.weekly_digest).map (fun r => r.week_end)
  · show ((sortBy (fun a b => strLeb b.week_end a.week_end) db.weekly_digest).map
      (fun r => r.week_end)).Pairwise _
    rw [List.pairwise_map]
    exact sortBy_pairwise
      (fun a b : WeeklyDigest => strLeb_total b.week_end a.week_end)
      (fun a b c h1 h2 => strLeb_trans h2 h1) db.weekly_digest

/-- C5: when `daily_digest` is non-empty, `getLatestDigest` returns the
page built from the row whose date is the maximum date present; on the
empty table it returns `none` (null). -/
theorem getLatestDigest_max (db : DB) (hwf : WF db) :
    ((getLatestDigest db).1 = none ↔ db.daily_digest = []) ∧
    (∀ r ∈ db.daily_digest,
      (∀ r2 ∈ db.daily_digest, strLeb r2.date r.date = true) →
      (getLatestDigest db).1 = some (buildDigestPage db r).1) := by
  constructor
  · rw [getLatestDigest_fst, Option.map_eq_none', List.head?_eq_none_iff]
    constructor
    · intro h
      have hp := (sortBy_perm (fun a b : DailyDigest => strLeb b.date a.date)
        db.daily_digest).symm
      rw [h] at hp
      exact hp.eq_nil
    · intro h
      rw [h]
      rfl
  · intro r hr hmax
    rw [getLatestDigest_fst]
    rcases hsort : sortBy (fun a b : DailyDigest => strLeb b.date a.date) db.daily_digest
      with _ | ⟨x, t⟩
    · have hp := sortBy_perm (fun a b : DailyDigest => strLeb b.date a.date) db.daily_digest
      rw [hsort] at hp
      rw [hp.symm.eq_nil] at hr
      cases hr
    · have hp := sortBy_perm (fun a b : DailyDigest => strLeb b.date a.date) db.daily_digest
      rw [hsort] at hp
      have hxmem : x ∈ db.daily_digest := hp.mem_iff.mp (List.mem_cons_self x t)
      have hsorted := sortBy_pairwise
        (fun a b : DailyDigest => strLeb_total b.date a.date)
        (fun a b c h1 h2 => strLeb_trans h2 h1) db.daily_digest
      rw [hsort, List.pairwise_cons] at hsorted
      have hrmem : r ∈ x :: t := hp.mem_iff.mpr hr
      have hxr : x = r := by
        rcases List.mem_cons.mp hrmem with h | h
        · exact h.symm
        · have h1 : strLeb r.date x.date = true := hsorted.1 r h
          have h2 : strLeb x.date r.date = true := hmax x hxmem
          have hdate : x.date = r.date := strLeb_antisymm h2 h1
          exact List.inj_on_of_nodup_map hwf.1 hxmem hr hdate
      simp only [List.head?_cons, Option.map_some']
      rw [hxr]

/-- Witness for C5: on the example database the 2024-01-02 row is maximal
and `getLatestDigest` returns its page. -/
theorem getLatestDigest_max_witness :
    (getLatestDigest exDb).1 = some (buildDigestPage exDb exDaily2).1 :=
  (getLatestDigest_max exDb (by unfold WF; exact ⟨by decide, by decide⟩)).2
    exDaily2 (by decide) (by decide)

/-- C6: `getDigestByDate d` returns null iff no `daily_digest` row has
date `d`, `getWeeklyDigest w` returns null iff no `weekly_digest` row has
week_end `w`; when the row exists, the page built from it is returned. -/
theorem get_by_key_iff (db : DB) (d w : String) (hwf : WF db) :
    ((getDigestByDate db d).1 = none ↔ ∀ r ∈ db.daily_digest, r.date ≠ d) ∧
    (∀ r ∈ db.daily_digest, r.date = d →
      (getDigestByDate db d).1 = some (buildDigestPage db r).1) ∧
    ((getWeeklyDigest db w).1 = none ↔ ∀ r ∈ db.weekly_digest, r.week_end ≠ w) ∧
    (∀ r ∈ db.weekly_digest, r.week_end = w →
      (getWeeklyDigest db w).1 = some (buildWeeklyPage db r).1) := by
  refine ⟨?_, ?_, ?_, ?_⟩
  · rw [getDigestByDate_fst, Option.map_eq_none', List.find?_eq_none]
    constructor
    · intro h r hr
      have := h r hr
      simpa using this
    · intro h r hr
      simpa using h r hr
  · intro r hr hd
    rw [getDigestByDate_fst]
    cases hf : db.daily_digest.find? (fun x => x.date == d) with
    | none =>
      rw [List.find?_eq_none] at hf
      exact absurd (by simpa using hd) (hf r hr)
    | some row =>
      have hmem := List.mem_of_find?_eq_some hf
      have hpred := List.find?_some hf
      have hrowdate : row.date = d := by simpa using hpred
      have hrowr : row = r :=
        List.inj_on_of_nodup_map hwf.1 hmem hr (by rw [hrowdate, hd])
      simp [hf, hrowr]
  · rw [getWeeklyDigest_fst, Option.map_eq_none', List.find?_eq_none]
    constructor
    · intro h r hr
      have := h r hr
      simpa using this
    · intro h r hr
      simpa using h r hr
  · intro r hr hd
    rw [getWeeklyDigest_fst]
    cases hf : db.weekly_digest.find? (fun x => x.week_end == w) with
    | none =>
      rw [List.find?_eq_none] at hf
      exact absurd (by simpa using hd) (hf r hr)
    | some row =>
      have hmem := List.mem_of_find?_eq_some hf
      have hpred := List.find?_some hf
      have hrowdate : row.week_end = w := by simpa using hpred
      have hrowr : row = r :=
        List.inj_on_of_nodup_map hwf.2 hmem hr (by rw [hrowdate, hd])
      simp [hf, hrowr]

/-- Witness for C6 at the concrete example database. -/
theorem get_by_key_iff_witness :
    (getDigestByDate exDb "2024-01-01").1 = some (buildDigestPage exDb exDaily1).1 ∧
    (getWeeklyDigest exDb "2024-01-07").1 = some (buildWeeklyPage exDb exWeekly).1 :=
  ⟨(get_by_key_iff exDb "2024-01-01" "2024-01-07"
      (by unfold WF; exact ⟨by decide, by decide⟩)).2.1 exDaily1 (by decide) rfl,
   (get_by_key_iff exDb "2024-01-01" "2024-01-07"
      (by unfold WF; exact ⟨by decide, by decide⟩)).2.2.2 exWeekly (by decide) rfl⟩

/-- C7: the supported country table has exactly 31 codes, including the
regional/organizational pseudo-codes EU, UN and WHO, and `COUNTRY_NAMES`
and `COUNTRY_FLAGS` are keyed by exactly the same set of codes. -/
theorem country_tables_consistent :
    COUNTRY_NAMES.length = 31 ∧
    (COUNTRY_NAMES.map Prod.fst).Nodup ∧
    COUNTRY_NAMES.map Prod.fst = COUNTRY_FLAGS.map Prod.fst ∧
    "EU" ∈ COUNTRY_NAMES.map Prod.fst ∧
    "UN" ∈ COUNTRY_NAMES.map Prod.fst ∧
    "WHO" ∈ COUNTRY_NAMES.map Prod.fst :=
  ⟨rfl, by decide, rfl, by decide, by decide, by decide⟩

/-- C8: when the store holds no daily digest for the requested date, the
daily OG route's GET responds with HTTP 404 and renders no image; the
weekly OG route behaves the same for week-end dates with no weekly digest. -/
theorem og_routes_404_when_absent (db : DB) (d w : String)
    (hd : ∀ r ∈ db.daily_digest, r.date ≠ d)
    (hw : ∀ r ∈ db.weekly_digest, r.week_end ≠ w) :
    (dailyOgGET db d).status = 404 ∧ (dailyOgGET db d).image = none ∧
    (weeklyOgGET db w).status = 404 ∧ (weeklyOgGET db w).image = none := by
  have h1 : (getDigestByDate db d).1 = none := by
    rw [getDigestByDate_fst, Option.map_eq_none', List.find?_eq_none]
    intro r hr
    simpa using hd r hr
  have h2 : (getWeeklyDigest db w).1 = none := by
    rw [getWeeklyDigest_fst, Option.map_eq_none', List.find?_eq_none]
    intro r hr
    simpa using hw r hr
  unfold dailyOgGET weeklyOgGET
  rw [h1, h2]
  exact ⟨rfl, rfl, rfl, rfl⟩

/-- Witness for C8: the example database has no digest on 2024-03-05. -/
theorem og_routes_404_when_absent_witness :
    (dailyOgGET exDb "2024-03-05").status = 404 ∧
    (dailyOgGET exDb "2024-03-05").image = none ∧
    (weeklyOgGET exDb "2024-03-05").status = 404 ∧
    (weeklyOgGET exDb "2024-03-05").image = none :=
  og_routes_404_when_absent exDb "2024-03-05" "2024-03-05" (by decide) (by decide)

theorem jsSlice_length (s : String) (n : Nat) : (jsSlice s n).length = min n s.length := by
  cases s with
  | mk l =>
    show (l.take n).length = min n l.length
    exact List.length_take n l

/-- C9: the description text placed in the rendered image is the input
description when its length is at most 140 and otherwise its first 137
characters followed by "...", so it never exceeds 140 characters; the
headline likewise with limits 90 and 87. -/
theorem generateOgImage_truncates (headline description dateLabel : String) :
    (description.length ≤ 140 →
      (generateOgImage headline description dateLabel).description = description) ∧
    (140 < description.length →
      (generateOgImage headline description dateLabel).description =
        jsSlice description 137 ++ "...") ∧
    (generateOgImage headline description dateLabel).description.length ≤ 140 ∧
    (headline.length ≤ 90 →
      (generateOgImage headline description dateLabel).headline = headline) ∧
    (90 < headline.length →
      (generateOgImage headline description dateLabel).headline =
        jsSlice headline 87 ++ "...") ∧
    (generateOgImage headline description dateLabel).headline.length ≤ 90 := by
  refine ⟨?_, ?_, ?_, ?_, ?_, ?_⟩
  · intro h
    show (if description.length > 140 then jsSlice description 137 ++ "..." else description)
      = description
    rw [if_neg (by omega)]
  · intro h
    show (if description.length > 140 then jsSlice description 137 ++ "..." else description)
      = jsSlice description 137 ++ "..."
    rw [if_pos (by omega)]
  · show (if description.length > 140 then jsSlice description 137 ++ "..." else description).length
      ≤ 140
    by_cases h : description.length > 140
    · rw [if_pos h, String.length_append, jsSlice_length]
      have h3 : ("..." : String).length = 3 := rfl
      rw [h3]
      have := Nat.min_le_left 137 description.length
      omega
    · rw [if_neg h]
      omega
  · intro h
    show (if headline.length > 90 then jsSlice headline 87 ++ "..." else headline) = headline
    rw [if_neg (by omega)]
  · intro h
    show (if headline.length > 90 then jsSlice headline 87 ++ "..." else headline)
      = jsSlice headline 87 ++ "..."
    rw [if_pos (by omega)]
  · show (if headline.length > 90 then jsSlice headline 87 ++ "..." else headline).length ≤ 90
    by_cases h : headline.length > 90
    · rw [if_pos h, String.length_append, jsSlice_length]
      have h3 : ("..." : String).length = 3 := rfl
      rw [h3]
      have := Nat.min_le_left 87 headline.length
      omega
    · rw [if_neg h]
      omega

theorem exLongDesc_length : exLongDesc.length = 141 := by
  show (List.replicate 141 'a').length = 141
  simp

/-- Witness for C9: a 141-character description is truncated, a short
headline passes through unchanged. -/
theorem generateOgImage_truncates_witness :
    (generateOgImage "H" exLongDesc "L").description = jsSlice exLongDesc 137 ++ "..." ∧
    (generateOgImage "H" exLongDesc "L").headline = "H" :=
  ⟨(generateOgImage_truncates "H" exLongDesc "L").2.1 (by rw [exLongDesc_length]; omega),
   (generateOgImage_truncates "H" exLongDesc "L").2.2.2.1 (by decide)⟩

